import Mathlib

/-!
# Verification of the Hydrogen pattern-editor grid/cursor arithmetic

Shallow embedding of the tick-based grid quantization and cursor-positioning
logic of the Hydrogen pattern editor
(`src/gui/src/PatternEditor/PatternEditorPanel.cpp` and the `PatternEditor`
base-class header).  C++ `int` values are modelled by `ℤ`, C++ `float`/`double`
values by `ℚ` (exact rational arithmetic; the spec explicitly allows
"floating-point (or exact rational) arithmetic" for these quantities).
-/

namespace Hydrogen

/-- Constant `MAX_NOTES`, the fixed timeline resolution (ticks per whole note).
Defined in the core headers of the repository; fixed at 192 throughout. -/
def MAX_NOTES : ℤ := 192

/-- C library `round()`: round half away from zero, as applied to an exact
rational value. -/
def cround (q : ℚ) : ℤ := if 0 ≤ q then ⌊q + 1/2⌋ else ⌈q - 1/2⌉

/-- C cast from a floating value to `int`: truncation toward zero. -/
def ctrunc (q : ℚ) : ℤ := if 0 ≤ q then ⌊q⌋ else ⌈q⌉

/-- The grid state shared by every `PatternEditor` instance:
`m_nResolution`, `m_nTupletNumerator`, `m_nTupletDenominator`
(PatternEditor.h). -/
structure GridState where
  resolution : ℤ
  tupletNumerator : ℤ
  tupletDenominator : ℤ
deriving Repr, DecidableEq

/-- Model of `PatternEditor::granularity()` (PatternEditor.h, lines 150-153):
`(float) MAX_NOTES * m_nTupletDenominator / ( m_nTupletNumerator * m_nResolution )`,
the tick distance between adjacent grid marks. -/
def GridState.granularity (g : GridState) : ℚ :=
  (MAX_NOTES : ℚ) * (g.tupletDenominator : ℚ) / ((g.tupletNumerator * g.resolution : ℤ) : ℚ)

/-- The part of `PatternEditorPanel` state the cursor operations act on:
the grid fields of the panel, the length of the selected pattern
(`m_pPattern->get_length()`, in ticks) and `m_nCursorIndexPosition`. -/
structure PanelState where
  grid : GridState
  patternLength : ℤ
  cursorIndex : ℤ
deriving Repr, DecidableEq

/-- Modelled from the spec: `PatternEditorPanel::granularity()`.  The panel
header (not part of the provided sources) declares a `granularity()` of its
own; per spec §4.2 it computes the same formula as
`PatternEditor::granularity()` over the panel copies of resolution and tuplet
ratio, which are kept in sync by `setResolutionToAllEditors` / `setTupletRatioToAllEditors`. -/
def PanelState.granularity (s : PanelState) : ℚ := s.grid.granularity

/-- Model of `PatternEditorPanel::moveCursorLeft()` (PatternEditorPanel.cpp 1383-1392),
ignoring the `ensureCursorVisible()` rendering call. -/
def moveCursorLeft (s : PanelState) : PanelState :=
  if s.cursorIndex > 0 then { s with cursorIndex := s.cursorIndex - 1 } else s

/-- Model of `PatternEditorPanel::moveCursorRight()` (PatternEditorPanel.cpp 1394-1403),
ignoring the `ensureCursorVisible()` rendering call.  Note the source applies
`round` to the integer expression `m_nCursorIndexPosition + 1` and then
multiplies by `granularity()`: the comparison itself is unrounded. -/
def moveCursorRight (s : PanelState) : PanelState :=
  if ((cround ((s.cursorIndex + 1 : ℤ) : ℚ) : ℚ) * s.granularity < (s.patternLength : ℚ)) then
    { s with cursorIndex := s.cursorIndex + 1 }
  else s

/-- Model of `PatternEditorPanel::setCursorIndexPosition(int)` (PatternEditorPanel.cpp
1361-1370).  The assignment `m_nCursorIndexPosition = length / granularity()`
stores a float into an `int` member, hence the truncating cast `ctrunc`. -/
def setCursorIndexPosition (s : PanelState) (nGridIndex : ℤ) : PanelState :=
  if nGridIndex < 0 then
    { s with cursorIndex := 0 }
  else if s.patternLength ≤ cround ((nGridIndex : ℚ) * s.granularity) then
    { s with cursorIndex := ctrunc ((s.patternLength : ℚ) / s.granularity) }
  else
    { s with cursorIndex := nGridIndex }

/-! ## Pattern length expression handling (`patternSizeLCDClicked`) -/

/-- The pattern fields the length handler reads and writes:
`m_pPattern->get_length()` (ticks) and `m_pPattern->get_denominator()`. -/
structure PatternState where
  length : ℤ
  denominator : ℤ
deriving Repr, DecidableEq

/-- The numeric content of the entered length expression after
`qtmp.split( '/' )` and the per-part numeric conversions:
`parts[0].toDouble` (comma already replaced by point) and `parts[1].toInt`.
`none` models a failed conversion (`bOk == false`). -/
inductive SizeParts where
  | one (num : Option ℚ)
  | two (num : Option ℚ) (den : Option ℤ)
  | many
deriving Repr, DecidableEq

/-- Result of `PatternEditorPanel::patternSizeLCDClicked`
(PatternEditorPanel.cpp 1025-1106): the pattern fields after the handler, an
acceptance flag (false on each of the dialog-and-return rejection paths), and
the two informational advisories of the accept path. -/
structure SizeOutcome where
  pattern : PatternState
  accepted : Bool
  denominatorAdvisory : Bool
  approximationAdvisory : Bool
deriving Repr, DecidableEq

/-- A rejection path of the length handler: state untouched, no advisory. -/
def sizeReject (p : PatternState) : SizeOutcome :=
  { pattern := p, accepted := false,
    denominatorAdvisory := false, approximationAdvisory := false }

/-- The accept path of `patternSizeLCDClicked` after the numerator and the
(entered or current) denominator have been resolved
(PatternEditorPanel.cpp 1062-1099): checks `fNumerator > 0`, the 16/4 size
ceiling, then stores `nLength = round( MAX_NOTES / (double) nDenominator *
fNumerator )` together with `nDenominator` and computes both advisories. -/
def sizeAccept (p : PatternState) (fNumerator : ℚ) (nDenominator : ℤ) : SizeOutcome :=
  if 0 < fNumerator then
    if 4 < fNumerator / (nDenominator : ℚ) then
      sizeReject p
    else
      let nLength : ℤ := cround ((MAX_NOTES : ℚ) / (nDenominator : ℚ) * fNumerator)
      { pattern := { length := nLength, denominator := nDenominator },
        accepted := true,
        denominatorAdvisory := decide (MAX_NOTES % nDenominator ≠ 0),
        approximationAdvisory :=
          decide (cround ((nLength : ℚ) / (MAX_NOTES : ℚ) * (nDenominator : ℚ) * 1000)
                  ≠ cround (fNumerator * 1000)) }
  else sizeReject p

/-- Model of `PatternEditorPanel::patternSizeLCDClicked` (PatternEditorPanel.cpp
1025-1106), numeric core.  The surrounding dialog plumbing (engine-state
check, OK button, unchanged-text early return, message boxes) is presentation
and not modelled; each `QMessageBox` + `return` rejection path is
`sizeReject`.  When the denominator part is absent the current pattern
denominator is reused; a failed numerator or denominator conversion makes
`bOk` false and falls through to the `Text rejected` path. -/
def patternSizeLCDClicked (p : PatternState) (parts : SizeParts) : SizeOutcome :=
  match parts with
  | .many => sizeReject p
  | .one none => sizeReject p
  | .one (some fNumerator) => sizeAccept p fNumerator p.denominator
  | .two none _ => sizeReject p
  | .two (some _) none => sizeReject p
  | .two (some fNumerator) (some nDenominator) =>
      if nDenominator ≤ 0 ∨ MAX_NOTES < nDenominator then sizeReject p
      else sizeAccept p fNumerator nDenominator

/-- The text produced by `PatternEditorPanel::updatePatternSizeLCD`:
either an exact integer fraction `num/den`, or a numerator printed as a
decimal with exactly 3 fractional digits over `den` (`decimal3` carries the
numerator in thousandths, the value `loc.toString( x, 'f', 3 )` displays). -/
inductive PatternSizeText where
  | fraction (num den : ℤ)
  | decimal3 (numThousandths den : ℤ)
deriving Repr, DecidableEq

/-- Model of `PatternEditorPanel::updatePatternSizeLCD` (PatternEditorPanel.cpp
985-1013), text computation: if `( nPatternSize * nDen ) % MAX_NOTES == 0` the
numerator is the integer `( nPatternSize * nDen ) / MAX_NOTES`, else the
float `( nPatternSize * nDen ) / (float) MAX_NOTES` is printed with 3 decimal
digits.  All reachable lengths and denominators are nonnegative, where C `/`
and `%` agree with the Lean Int division and emod. -/
def updatePatternSizeLCD (p : PatternState) : PatternSizeText :=
  if (p.length * p.denominator) % MAX_NOTES = 0 then
    .fraction ((p.length * p.denominator) / MAX_NOTES) p.denominator
  else
    .decimal3 (cround ((p.length * p.denominator : ℤ) / (MAX_NOTES : ℚ) * 1000)) p.denominator

/-- Whether `updatePatternSizeLCD` shows the denominator warning icon:
`MAX_NOTES % nDen != 0` (PatternEditorPanel.cpp 1007-1012). -/
def denominatorWarningShown (p : PatternState) : Bool :=
  decide (MAX_NOTES % p.denominator ≠ 0)

/-! ## Tuplet expression handling (`tupletLCDClicked`) -/

/-- The tuplet LCD text: the literal string `off`, or the `num:den` text
produced by `QString( "%1:%2" )`. -/
inductive TupletText where
  | off
  | ratio (num den : ℤ)
deriving Repr, DecidableEq

/-- The tuplet LCD text chosen at panel construction
(PatternEditorPanel.cpp 601-605) from the preferences ratio: `off` for
(4,4), `num:den` otherwise. -/
def initialTupletText (num den : ℤ) : TupletText :=
  if num = 4 ∧ den = 4 then .off else .ratio num den

/-- The numeric content of the entered tuplet expression after
`qtmp.split( ':' )` and `toInt` on each part; `none` is a failed conversion. -/
inductive TupletParts where
  | one (num : Option ℤ)
  | two (num : Option ℤ) (den : Option ℤ)
  | many
deriving Repr, DecidableEq

/-- The loop deriving the standard tuplet denominator
(PatternEditorPanel.cpp 1144-1147):
`nTupletDenominator = 1; while ( ( 2 * nTupletDenominator ) <= nTupletNumerator )
nTupletDenominator *= 2;`.  Structured with explicit fuel so that it computes
by kernel reduction; `stdTupletDenominator` supplies fuel sufficient for every
numerator (the accumulator doubles from 1 each iteration). -/
def tupletDenLoop : ℕ → ℤ → ℤ → ℤ
  | 0, den, _ => den
  | fuel + 1, den, num => if 2 * den ≤ num then tupletDenLoop fuel (2 * den) num else den

/-- The derived denominator for a tuplet expression without an explicit
denominator: the source loop started at 1. -/
def stdTupletDenominator (num : ℤ) : ℤ := tupletDenLoop num.toNat 1 num

/-- Update of the tuplet ratio of one editor, `PatternEditor::setTupletRatio`
(both fields replaced together, resolution untouched). -/
def setTupletRatio (e : GridState) (num den : ℤ) : GridState :=
  { e with tupletNumerator := num, tupletDenominator := den }

/-- Update of the resolution of one editor, `PatternEditor::setResolution`. -/
def setResolution (e : GridState) (res : ℤ) : GridState :=
  { e with resolution := res }

/-- Model of `PatternEditorPanel::setTupletRatioToAllEditors` (PatternEditorPanel.cpp
746-757): broadcasts `setTupletRatio` to every editor (drum, piano roll and
the five note-property rulers), modelled as a map over the editor list. -/
def setTupletRatioToAllEditors (editors : List GridState) (num den : ℤ) : List GridState :=
  editors.map (fun e => setTupletRatio e num den)

/-- Model of `PatternEditorPanel::setResolutionToAllEditors` (PatternEditorPanel.cpp
734-744): broadcasts `setResolution` to every editor. -/
def setResolutionToAllEditors (editors : List GridState) (res : ℤ) : List GridState :=
  editors.map (fun e => setResolution e res)

/-- The state the tuplet handler reads and writes: the preferences tuplet
ratio, the grid state of every editor, and the tuplet LCD text. -/
structure TupletPanelState where
  prefsTupletNumerator : ℤ
  prefsTupletDenominator : ℤ
  editors : List GridState
  tupletLcd : TupletText
deriving Repr, DecidableEq

/-- Result of `PatternEditorPanel::tupletLCDClicked`: the panel state after
the handler and an acceptance flag. -/
structure TupletOutcome where
  state : TupletPanelState
  accepted : Bool
deriving Repr, DecidableEq

/-- The accept-or-reject tail of `tupletLCDClicked`
(PatternEditorPanel.cpp 1149-1168): checks `nTupletNumerator > 0` and the
numerator ceiling 20, then stores the ratio in the preferences, broadcasts it
to every editor, and sets the LCD text to `num:den`. -/
def tupletAccept (st : TupletPanelState) (num den : ℤ) : TupletOutcome :=
  if 0 < num then
    if 20 < num then
      { state := st, accepted := false }
    else
      { state := { prefsTupletNumerator := num,
                   prefsTupletDenominator := den,
                   editors := setTupletRatioToAllEditors st.editors num den,
                   tupletLcd := .ratio num den },
        accepted := true }
  else { state := st, accepted := false }

/-- Model of `PatternEditorPanel::tupletLCDClicked` (PatternEditorPanel.cpp 1108-1175),
numeric core.  Dialog plumbing (OK button, unchanged-text early return,
message boxes) is presentation and not modelled; every `QMessageBox` +
`return` path leaves the state untouched.  When the denominator part is
absent it is derived by the power-of-two loop; the loop runs before the
numerator sign/ceiling checks, as in the source. -/
def tupletLCDClicked (st : TupletPanelState) (parts : TupletParts) : TupletOutcome :=
  match parts with
  | .many => { state := st, accepted := false }
  | .one none => { state := st, accepted := false }
  | .one (some num) => tupletAccept st num (stdTupletDenominator num)
  | .two none _ => { state := st, accepted := false }
  | .two (some _) none => { state := st, accepted := false }
  | .two (some num) (some den) =>
      if den ≤ 0 ∨ MAX_NOTES < den then { state := st, accepted := false }
      else tupletAccept st num den

/-! ## Grid resolution selection (`gridResolutionChanged`) -/

/-- The state `gridResolutionChanged` reads and writes: the grid state of
every editor, the persisted resolution and tuplet ratio, the tuplet LCD text and the
cursor increment `m_nCursorIncrement`. -/
structure ResolutionPanelState where
  editors : List GridState
  prefsResolution : ℤ
  prefsTupletNumerator : ℤ
  prefsTupletDenominator : ℤ
  tupletLcd : TupletText
  cursorIncrement : ℤ
deriving Repr, DecidableEq

/-- The common tail of `gridResolutionChanged` (PatternEditorPanel.cpp
719-731): broadcast the new resolution to every editor, recompute
`m_nCursorIncrement = ( nTupletNumerator == 3 ? 4 : 3 ) * MAX_NOTES /
( nResolution * 3 )` from the preferences tuplet numerator, and persist the
resolution. -/
def finishResolution (st : ResolutionPanelState) (nResolution : ℤ) : ResolutionPanelState :=
  { st with
    editors := setResolutionToAllEditors st.editors nResolution,
    cursorIncrement :=
      (if st.prefsTupletNumerator = 3 then 4 else 3) * MAX_NOTES / (nResolution * 3),
    prefsResolution := nResolution }

/-- Model of `PatternEditorPanel::gridResolutionChanged` (PatternEditorPanel.cpp
687-732).  Index 11 is the `off` entry: resolution `MAX_NOTES` and the tuplet
ratio forced to (4,4) everywhere (preferences, LCD text and every editor).
Indices above 4 are the triplet entries: ratio forced to (3,2) and resolution
`1 << (nSelected - 4)`.  Indices 0-4 set resolution `1 << (nSelected + 2)`
and do not touch the tuplet ratio.  Shifts are modelled by powers of 2 on
the `toNat` image of the (nonnegative) shift amount. -/
def gridResolutionChanged (st : ResolutionPanelState) (nSelected : ℤ) : ResolutionPanelState :=
  if nSelected = 11 then
    let st1 := { st with
      prefsTupletNumerator := 4, prefsTupletDenominator := 4,
      tupletLcd := TupletText.ratio 4 4,
      editors := setTupletRatioToAllEditors st.editors 4 4 }
    finishResolution st1 MAX_NOTES
  else if 4 < nSelected then
    let st1 := { st with
      prefsTupletNumerator := 3, prefsTupletDenominator := 2,
      tupletLcd := TupletText.ratio 3 2,
      editors := setTupletRatioToAllEditors st.editors 3 2 }
    finishResolution st1 (2 ^ (nSelected - 4).toNat)
  else
    finishResolution st (2 ^ (nSelected + 2).toNat)

/-! ## Helper lemmas -/

theorem cround_intCast (n : ℤ) : cround (n : ℚ) = n := by
  unfold cround
  split
  · rw [Int.floor_int_add]
    norm_num
  · rw [show ((n : ℚ) - 1/2) = (-(1/2) : ℚ) + (n : ℚ) by ring, Int.ceil_add_int]
    norm_num

theorem ctrunc_of_nonneg (q : ℚ) (h : 0 ≤ q) : ctrunc q = ⌊q⌋ := by
  unfold ctrunc
  exact if_pos h

theorem tupletDenLoop_pow :
    ∀ (fuel : ℕ) (den num : ℤ), 0 < den → den ≤ num → num < 2 ^ fuel * den →
      ∃ k : ℕ, tupletDenLoop fuel den num = 2 ^ k * den ∧
        2 ^ k * den ≤ num ∧ num < 2 ^ (k + 1) * den := by
  intro fuel
  induction fuel with
  | zero =>
      intro den num h1 h2 h3
      simp only [pow_zero, one_mul] at h3
      omega
  | succ f ih =>
      intro den num h1 h2 h3
      simp only [tupletDenLoop]
      split
      case isTrue h =>
        have h3' : num < 2 ^ f * (2 * den) := by
          have : (2 : ℤ) ^ (f + 1) * den = 2 ^ f * (2 * den) := by ring
          omega
        obtain ⟨k, hk1, hk2, hk3⟩ := ih (2 * den) num (by omega) h h3'
        refine ⟨k + 1, ?_, ?_, ?_⟩
        · rw [hk1]; ring
        · have : (2 : ℤ) ^ (k + 1) * den = 2 ^ k * (2 * den) := by ring
          omega
        · have : (2 : ℤ) ^ (k + 1 + 1) * den = 2 ^ (k + 1) * (2 * den) := by ring
          omega
      case isFalse h =>
        refine ⟨0, by simp, by simpa using h2, ?_⟩
        have : (2 : ℤ) ^ (0 + 1) * den = 2 * den := by ring
        omega

theorem stdTupletDenominator_pow (num : ℤ) (h : 0 < num) :
    ∃ k : ℕ, stdTupletDenominator num = 2 ^ k ∧ 2 ^ k ≤ num ∧ num < 2 ^ (k + 1) := by
  have hfuel : num < 2 ^ num.toNat * 1 := by
    have h1 : num = (num.toNat : ℤ) := (Int.toNat_of_nonneg h.le).symm
    have h2 : (num.toNat : ℕ) < 2 ^ num.toNat := Nat.lt_two_pow _
    have h3 : ((num.toNat : ℕ) : ℤ) < ((2 ^ num.toNat : ℕ) : ℤ) := by exact_mod_cast h2
    push_cast at h3
    omega
  obtain ⟨k, hk1, hk2, hk3⟩ := tupletDenLoop_pow num.toNat 1 num one_pos h hfuel
  exact ⟨k, by simpa [stdTupletDenominator] using hk1, by omega, by omega⟩

theorem sizeAccept_spec (p : PatternState) (n : ℚ) (d : ℤ)
    (hn : 0 < n) (hr : n / (d : ℚ) ≤ 4) :
    (sizeAccept p n d).accepted = true ∧
    (sizeAccept p n d).pattern = ⟨cround ((192 : ℚ) / (d : ℚ) * n), d⟩ ∧
    (sizeAccept p n d).denominatorAdvisory = decide ((192 : ℤ) % d ≠ 0) := by
  have hMQ : ((MAX_NOTES : ℤ) : ℚ) = (192 : ℚ) := by norm_num [MAX_NOTES]
  unfold sizeAccept
  rw [if_pos hn, if_neg (not_lt.mpr hr), hMQ]
  refine ⟨rfl, rfl, by norm_num [MAX_NOTES]⟩

theorem patternSizeLCDClicked_two (p : PatternState) (n : ℚ) (d : ℤ)
    (hd0 : 0 < d) (hd1 : d ≤ 192) :
    patternSizeLCDClicked p (.two (some n) (some d)) = sizeAccept p n d := by
  have hcond : ¬ (d ≤ 0 ∨ MAX_NOTES < d) := by unfold MAX_NOTES; omega
  simp only [patternSizeLCDClicked, if_neg hcond]

theorem patternSizeLCDClicked_one (p : PatternState) (n : ℚ) :
    patternSizeLCDClicked p (.one (some n)) = sizeAccept p n p.denominator := by
  simp only [patternSizeLCDClicked]

theorem sizeAccept_rejected_frame (p : PatternState) (n : ℚ) (d : ℤ) :
    (sizeAccept p n d).accepted = false → (sizeAccept p n d).pattern = p := by
  unfold sizeAccept
  split_ifs <;> simp [sizeReject]

theorem tupletAccept_rejected_frame (st : TupletPanelState) (num den : ℤ) :
    (tupletAccept st num den).accepted = false → (tupletAccept st num den).state = st := by
  unfold tupletAccept
  split_ifs <;> simp

theorem tupletAccept_lcd (st : TupletPanelState) (num den : ℤ)
    (hacc : (tupletAccept st num den).accepted = true) :
    (tupletAccept st num den).state.tupletLcd =
      TupletText.ratio (tupletAccept st num den).state.prefsTupletNumerator
        (tupletAccept st num den).state.prefsTupletDenominator := by
  unfold tupletAccept at hacc ⊢
  split_ifs at hacc ⊢
  simp_all

/-! ## Claim theorems -/

/-- C1: for every accepted length expression with numerator `n > 0` (a
fractional value after decimal-separator normalisation) and denominator `d`
in `(0, 192]` — entered explicitly, or reused from the current pattern when
omitted — the stored pattern length is `round(192 / d * n)` ticks and the
stored denominator is `d`.  The acceptance conditions are exactly the checks
of the handler: `d` in range, `n > 0`, and `n / d ≤ 4`. -/
theorem patternSize_stores_rounded_length (p : PatternState) (n : ℚ) (d : ℤ)
    (hn : 0 < n) (hd0 : 0 < d) (hd1 : d ≤ 192) (hr : n / (d : ℚ) ≤ 4) :
    ((patternSizeLCDClicked p (.two (some n) (some d))).accepted = true ∧
      (patternSizeLCDClicked p (.two (some n) (some d))).pattern =
        ⟨cround ((192 : ℚ) / (d : ℚ) * n), d⟩) ∧
    (p.denominator = d →
      (patternSizeLCDClicked p (.one (some n))).accepted = true ∧
      (patternSizeLCDClicked p (.one (some n))).pattern =
        ⟨cround ((192 : ℚ) / (d : ℚ) * n), d⟩) := by
  have hMQ : ((MAX_NOTES : ℤ) : ℚ) = (192 : ℚ) := by norm_num [MAX_NOTES]
  have hcond : ¬ (d ≤ 0 ∨ MAX_NOTES < d) := by unfold MAX_NOTES; omega
  have h1 : (sizeAccept p n d).accepted = true := by
    unfold sizeAccept
    rw [if_pos hn, if_neg (not_lt.mpr hr)]
  have h2 : (sizeAccept p n d).pattern = ⟨cround ((192 : ℚ) / (d : ℚ) * n), d⟩ := by
    unfold sizeAccept
    rw [if_pos hn, if_neg (not_lt.mpr hr), hMQ]
  refine ⟨⟨?_, ?_⟩, fun hpd => ⟨?_, ?_⟩⟩
  · simpa only [patternSizeLCDClicked, if_neg hcond] using h1
  · simpa only [patternSizeLCDClicked, if_neg hcond] using h2
  · simpa only [patternSizeLCDClicked, hpd] using h1
  · simpa only [patternSizeLCDClicked, hpd] using h2

/-- C1 witness: input `3/8` is accepted and stores length `72` with
denominator `8`, since `round(192 / 8 * 3) = 72`. -/
theorem patternSize_witness :
    (0:ℚ) < 3 ∧ ((3:ℚ) / ((8:ℤ):ℚ) ≤ 4) ∧
    (patternSizeLCDClicked ⟨192, 4⟩ (.two (some 3) (some 8))).accepted = true ∧
    (patternSizeLCDClicked ⟨192, 4⟩ (.two (some 3) (some 8))).pattern = ⟨72, 8⟩ := by
  have h := patternSize_stores_rounded_length ⟨192, 4⟩ 3 8
    (by norm_num) (by norm_num) (by norm_num) (by norm_num)
  refine ⟨by norm_num, by norm_num, h.1.1, ?_⟩
  rw [h.1.2]
  norm_num [cround]

/-- C2: for every grid state with positive resolution, tuplet numerator and
tuplet denominator, `granularity()` equals
`192 * tupletDenominator / (tupletNumerator * resolution)` and is strictly
positive. -/
theorem granularity_formula_and_pos (g : GridState)
    (hres : 0 < g.resolution) (hnum : 0 < g.tupletNumerator) (hden : 0 < g.tupletDenominator) :
    g.granularity =
      192 * (g.tupletDenominator : ℚ) / ((g.tupletNumerator : ℚ) * (g.resolution : ℚ)) ∧
    0 < g.granularity := by
  have hq : g.granularity =
      192 * (g.tupletDenominator : ℚ) / ((g.tupletNumerator : ℚ) * (g.resolution : ℚ)) := by
    unfold GridState.granularity MAX_NOTES
    push_cast
    ring
  refine ⟨hq, ?_⟩
  rw [hq]
  have h1 : (0:ℚ) < (g.tupletDenominator : ℚ) := by exact_mod_cast hden
  have h2 : (0:ℚ) < (g.tupletNumerator : ℚ) := by exact_mod_cast hnum
  have h3 : (0:ℚ) < (g.resolution : ℚ) := by exact_mod_cast hres
  positivity

/-- C2 witness: with resolution 16 and tuplet off — ratio 1:1 or 4:4 — the
granularity is exactly 12 ticks per grid mark, and it is positive. -/
theorem granularity_witness :
    (0:ℤ) < 16 ∧ 0 < (GridState.mk 16 1 1).granularity ∧
    (GridState.mk 16 1 1).granularity = 12 ∧ (GridState.mk 16 4 4).granularity = 12 :=
  ⟨by norm_num,
   (granularity_formula_and_pos ⟨16, 1, 1⟩ (by norm_num) (by norm_num) (by norm_num)).2,
   by norm_num [GridState.granularity, MAX_NOTES],
   by norm_num [GridState.granularity, MAX_NOTES]⟩

/-- C3 counterexample: with grid resolution 16, tuplet ratio 5:4 (granularity
`48/5 = 9.6` ticks), pattern length 29 ticks and cursor index 2, the rounded
tick position of index 3 is `round(28.8) = 29`, which is NOT strictly below
the pattern length — so the claim predicts the cursor stays at 2 — yet
`moveCursorRight` does increment the index to 3, because the source compares
the unrounded product `(index+1) * granularity() = 28.8 < 29` (the `round`
call in the source wraps only the integer `index+1`).  All three state
ingredients are reachable: resolution 16 with tuplet 5:4 via the tuplet LCD,
length 29 via a length expression such as `0.605/4`. -/
theorem moveCursorRight_rounded_claim_false :
    ¬ (cround ((((PanelState.mk ⟨16, 5, 4⟩ 29 2).cursorIndex + 1 : ℤ) : ℚ) *
        (PanelState.mk ⟨16, 5, 4⟩ 29 2).granularity) <
        (PanelState.mk ⟨16, 5, 4⟩ 29 2).patternLength) ∧
    (moveCursorRight ⟨⟨16, 5, 4⟩, 29, 2⟩).cursorIndex = 3 ∧
    (PanelState.mk ⟨16, 5, 4⟩ 29 2).cursorIndex = 2 := by
  refine ⟨?_, ?_, rfl⟩
  · norm_num [PanelState.granularity, GridState.granularity, MAX_NOTES, cround]
  · norm_num [moveCursorRight, PanelState.granularity, GridState.granularity, MAX_NOTES, cround]

/-- C3 amended: `moveCursorRight()` increments the cursor index by exactly one
when the unrounded product `(index + 1) * granularity()` is strictly below the
pattern length, and leaves the index unchanged otherwise (the `round` in the
source applies to the integer `index + 1`, so no rounding of the product takes
place); in particular, at the last valid grid index
`floor(patternLength / granularity())` it is a no-op. -/
theorem moveCursorRight_unrounded (s : PanelState) (hg : 0 < s.granularity) :
    ((moveCursorRight s).cursorIndex =
      if ((s.cursorIndex + 1 : ℤ) : ℚ) * s.granularity < (s.patternLength : ℚ)
      then s.cursorIndex + 1 else s.cursorIndex) ∧
    (s.cursorIndex = ⌊(s.patternLength : ℚ) / s.granularity⌋ →
      (moveCursorRight s).cursorIndex = s.cursorIndex) := by
  have hkey : (moveCursorRight s).cursorIndex =
      if ((s.cursorIndex + 1 : ℤ) : ℚ) * s.granularity < (s.patternLength : ℚ)
      then s.cursorIndex + 1 else s.cursorIndex := by
    unfold moveCursorRight
    rw [cround_intCast]
    split_ifs <;> rfl
  refine ⟨hkey, fun hidx => ?_⟩
  rw [hkey, if_neg ?_]
  have h1 : (s.patternLength : ℚ) / s.granularity < ((s.cursorIndex + 1 : ℤ) : ℚ) := by
    rw [hidx]
    push_cast
    exact Int.lt_floor_add_one _
  have h2 : (s.patternLength : ℚ) < ((s.cursorIndex + 1 : ℤ) : ℚ) * s.granularity := by
    have := (div_lt_iff₀ hg).mp h1
    linarith
  exact not_lt.mpr h2.le

/-- C3 witness: with granularity 12, length 48 and cursor index
`4 = floor(48 / 12)` (the last valid grid index), `moveCursorRight` is a
no-op. -/
theorem moveCursorRight_witness :
    0 < (PanelState.mk ⟨16, 1, 1⟩ 48 4).granularity ∧
    (PanelState.mk ⟨16, 1, 1⟩ 48 4).cursorIndex =
      ⌊((PanelState.mk ⟨16, 1, 1⟩ 48 4).patternLength : ℚ) /
        (PanelState.mk ⟨16, 1, 1⟩ 48 4).granularity⌋ ∧
    (moveCursorRight ⟨⟨16, 1, 1⟩, 48, 4⟩).cursorIndex = 4 := by
  have hg : 0 < (PanelState.mk ⟨16, 1, 1⟩ 48 4).granularity := by
    norm_num [PanelState.granularity, GridState.granularity, MAX_NOTES]
  have hidx : (PanelState.mk ⟨16, 1, 1⟩ 48 4).cursorIndex =
      ⌊((PanelState.mk ⟨16, 1, 1⟩ 48 4).patternLength : ℚ) /
        (PanelState.mk ⟨16, 1, 1⟩ 48 4).granularity⌋ := by
    norm_num [PanelState.granularity, GridState.granularity, MAX_NOTES]
  exact ⟨hg, hidx, (moveCursorRight_unrounded ⟨⟨16, 1, 1⟩, 48, 4⟩ hg).2 hidx⟩

/-- C4: `setCursorIndexPosition(g)` stores 0 when `g` is negative, stores
`floor(patternLength / granularity())` when the implied tick position
`round(g * granularity())` of `g` exceeds the valid tick range — that is,
reaches or passes `patternLength`, the first tick outside the pattern — and
stores `g` unchanged otherwise.  The source computes the clamp value by a
truncating int cast of `patternLength / granularity()`, which equals the
floor because both operands are nonnegative. -/
theorem setCursorIndex_clamps (s : PanelState) (g : ℤ)
    (hg : 0 < s.granularity) (hl : 0 ≤ s.patternLength) :
    (g < 0 → (setCursorIndexPosition s g).cursorIndex = 0) ∧
    (0 ≤ g → s.patternLength ≤ cround ((g : ℚ) * s.granularity) →
      (setCursorIndexPosition s g).cursorIndex = ⌊(s.patternLength : ℚ) / s.granularity⌋) ∧
    (0 ≤ g → cround ((g : ℚ) * s.granularity) < s.patternLength →
      (setCursorIndexPosition s g).cursorIndex = g) := by
  unfold setCursorIndexPosition
  refine ⟨fun h => by rw [if_pos h], fun h1 h2 => ?_, fun h1 h2 => ?_⟩
  · rw [if_neg (by omega : ¬ g < 0), if_pos h2]
    apply ctrunc_of_nonneg
    have hlQ : (0 : ℚ) ≤ (s.patternLength : ℚ) := by exact_mod_cast hl
    exact div_nonneg hlQ hg.le
  · rw [if_neg (by omega : ¬ g < 0),
      if_neg (by omega : ¬ s.patternLength ≤ cround ((g : ℚ) * s.granularity))]

/-- C4 witness: with granularity 12 and length 48, a grid index of 100 has
implied tick position 1200 ≥ 48 and is clamped to `floor(48 / 12) = 4`. -/
theorem setCursorIndex_witness :
    0 < (PanelState.mk ⟨16, 1, 1⟩ 48 0).granularity ∧
    (0:ℤ) ≤ 100 ∧
    (PanelState.mk ⟨16, 1, 1⟩ 48 0).patternLength ≤
      cround (((100 : ℤ) : ℚ) * (PanelState.mk ⟨16, 1, 1⟩ 48 0).granularity) ∧
    (setCursorIndexPosition ⟨⟨16, 1, 1⟩, 48, 0⟩ 100).cursorIndex = 4 := by
  have hg : 0 < (PanelState.mk ⟨16, 1, 1⟩ 48 0).granularity := by
    norm_num [PanelState.granularity, GridState.granularity, MAX_NOTES]
  have hle : (PanelState.mk ⟨16, 1, 1⟩ 48 0).patternLength ≤
      cround (((100 : ℤ) : ℚ) * (PanelState.mk ⟨16, 1, 1⟩ 48 0).granularity) := by
    norm_num [PanelState.granularity, GridState.granularity, MAX_NOTES, cround]
  have h := (setCursorIndex_clamps ⟨⟨16, 1, 1⟩, 48, 0⟩ 100 hg (by norm_num)).2.1
    (by norm_num) hle
  refine ⟨hg, by norm_num, hle, ?_⟩
  rw [h]
  norm_num [PanelState.granularity, GridState.granularity, MAX_NOTES]

/-- C5: rendering a stored `(length, denominator)` pair back to text yields
the exact integer fraction `((length * denominator) / 192) / denominator`
when `(length * denominator) % 192 == 0` and otherwise a numerator shown as a
decimal with exactly 3 fractional digits; consequently any pair produced by
parsing an integer fraction `a/d` whose denominator divides 192 renders back
as exactly `a/d`. -/
theorem render_roundtrip_exact (p : PatternState) (a d : ℤ)
    (ha : 0 < a) (hd : 0 < d) (hdvd : d ∣ 192) (hr : (a : ℚ) / (d : ℚ) ≤ 4) :
    ((patternSizeLCDClicked p (.two (some (a : ℚ)) (some d))).accepted = true ∧
      updatePatternSizeLCD (patternSizeLCDClicked p (.two (some (a : ℚ)) (some d))).pattern =
        .fraction a d) ∧
    (∀ q : PatternState,
      ((q.length * q.denominator) % 192 = 0 →
        updatePatternSizeLCD q = .fraction ((q.length * q.denominator) / 192) q.denominator) ∧
      ((q.length * q.denominator) % 192 ≠ 0 →
        updatePatternSizeLCD q =
          .decimal3 (cround (((q.length * q.denominator : ℤ) : ℚ) / (192 : ℚ) * 1000))
            q.denominator)) := by
  constructor
  · have hd1 : d ≤ 192 := Int.le_of_dvd (by norm_num) hdvd
    have hnQ : (0 : ℚ) < (a : ℚ) := by exact_mod_cast ha
    have heq := patternSizeLCDClicked_two p (a : ℚ) d hd hd1
    obtain ⟨hacc, hpat, _⟩ := sizeAccept_spec p (a : ℚ) d hnQ hr
    set m : ℤ := 192 / d with hm_def
    have hmul : m * d = 192 := Int.ediv_mul_cancel hdvd
    have hdQ : (d : ℚ) ≠ 0 := Int.cast_ne_zero.mpr (by omega)
    have hcast : (192 : ℚ) / (d : ℚ) * (a : ℚ) = ((m * a : ℤ) : ℚ) := by
      have h192 : (192 : ℚ) = ((m : ℤ) : ℚ) * (d : ℚ) := by exact_mod_cast hmul.symm
      rw [h192]
      push_cast
      field_simp
    have hlen : cround ((192 : ℚ) / (d : ℚ) * (a : ℚ)) = m * a := by
      rw [hcast, cround_intCast]
    refine ⟨heq ▸ hacc, ?_⟩
    rw [heq, hpat, hlen]
    have hprod : m * a * d = 192 * a := by rw [← hmul]; ring
    have hmod : (m * a * d) % 192 = 0 := by rw [hprod]; exact Int.mul_emod_right 192 a
    have hdiv : (m * a * d) / 192 = a := by
      rw [hprod]
      exact Int.mul_ediv_cancel_left a (by norm_num)
    unfold updatePatternSizeLCD
    rw [show (MAX_NOTES : ℤ) = 192 from rfl]
    simp only [hmod, if_pos]
    rw [hdiv]
  · intro q
    constructor
    · intro h
      unfold updatePatternSizeLCD
      rw [show (MAX_NOTES : ℤ) = 192 from rfl]
      simp [h]
    · intro h
      unfold updatePatternSizeLCD
      rw [show (MAX_NOTES : ℤ) = 192 from rfl]
      simp only [h, if_neg]
      norm_num

/-- C5 witness: the pair stored for input `3/8` renders back as the fraction
`3/8`. -/
theorem render_roundtrip_witness :
    (0:ℤ) < 3 ∧ ((8:ℤ) ∣ 192) ∧
    (patternSizeLCDClicked ⟨192, 4⟩ (.two (some ((3:ℤ) : ℚ)) (some 8))).accepted = true ∧
    updatePatternSizeLCD
      (patternSizeLCDClicked ⟨192, 4⟩ (.two (some ((3:ℤ) : ℚ)) (some 8))).pattern =
      .fraction 3 8 := by
  have h := render_roundtrip_exact ⟨192, 4⟩ 3 8 (by norm_num) (by norm_num)
    (by norm_num) (by norm_num)
  exact ⟨by norm_num, by norm_num, h.1.1, h.1.2⟩

/-- C6: when the entered denominator does not divide 192 but every other
validation passes, the input is still accepted: the approximation advisory
(the message that the length may be approximated) is emitted and the pattern
length and denominator ARE updated, the length to `round(192 / d * n)`. -/
theorem nondividing_denominator_accepted (p : PatternState) (n : ℚ) (d : ℤ)
    (hn : 0 < n) (hd0 : 0 < d) (hd1 : d ≤ 192) (hr : n / (d : ℚ) ≤ 4)
    (hmod : (192 : ℤ) % d ≠ 0) :
    (patternSizeLCDClicked p (.two (some n) (some d))).accepted = true ∧
    (patternSizeLCDClicked p (.two (some n) (some d))).denominatorAdvisory = true ∧
    (patternSizeLCDClicked p (.two (some n) (some d))).pattern =
      ⟨cround ((192 : ℚ) / (d : ℚ) * n), d⟩ := by
  have heq := patternSizeLCDClicked_two p n d hd0 hd1
  obtain ⟨hacc, hpat, hadv⟩ := sizeAccept_spec p n d hn hr
  refine ⟨heq ▸ hacc, ?_, heq ▸ hpat⟩
  rw [heq, hadv]
  simpa using hmod

/-- C6 witness: input `1/5` is accepted with the advisory and stores length
`round(192 / 5) = 38` with denominator 5. -/
theorem nondividing_denominator_witness :
    ((192 : ℤ) % 5 ≠ 0) ∧
    (patternSizeLCDClicked ⟨192, 4⟩ (.two (some 1) (some 5))).accepted = true ∧
    (patternSizeLCDClicked ⟨192, 4⟩ (.two (some 1) (some 5))).denominatorAdvisory = true ∧
    (patternSizeLCDClicked ⟨192, 4⟩ (.two (some 1) (some 5))).pattern = ⟨38, 5⟩ := by
  have h := nondividing_denominator_accepted ⟨192, 4⟩ 1 5 (by norm_num) (by norm_num)
    (by norm_num) (by norm_num) (by norm_num)
  refine ⟨by norm_num, h.1, h.2.1, ?_⟩
  rw [h.2.2]
  norm_num [cround]

/-- C7: whenever a length expression or tuplet expression is rejected — for
any rejection reason, covering more than one separator, failed or nonpositive
numerator, denominator outside `(0, 192]`, size ratio above 4, and tuplet
numerator above 20 — no state is mutated: the pattern length and denominator
and the preferences ratio, editor grid states and tuplet LCD text are all
left exactly as they were. -/
theorem rejected_expressions_frame (p : PatternState) (sp : SizeParts)
    (ts : TupletPanelState) (tp : TupletParts) :
    ((patternSizeLCDClicked p sp).accepted = false → (patternSizeLCDClicked p sp).pattern = p) ∧
    ((tupletLCDClicked ts tp).accepted = false → (tupletLCDClicked ts tp).state = ts) := by
  constructor
  · cases sp with
    | many => intro _; rfl
    | one num =>
        cases num with
        | none => intro _; rfl
        | some n =>
            simpa only [patternSizeLCDClicked] using sizeAccept_rejected_frame p n p.denominator
    | two num den =>
        cases num with
        | none => intro _; rfl
        | some n =>
            cases den with
            | none => intro _; rfl
            | some d =>
                simp only [patternSizeLCDClicked]
                split_ifs
                · intro _; rfl
                · exact sizeAccept_rejected_frame p n d
  · cases tp with
    | many => intro _; rfl
    | one num =>
        cases num with
        | none => intro _; rfl
        | some n =>
            simpa only [tupletLCDClicked] using
              tupletAccept_rejected_frame ts n (stdTupletDenominator n)
    | two num den =>
        cases num with
        | none => intro _; rfl
        | some n =>
            cases den with
            | none => intro _; rfl
            | some d =>
                simp only [tupletLCDClicked]
                split_ifs
                · intro _; rfl
                · exact tupletAccept_rejected_frame ts n d

/-- C7 witness: a length expression with two separators and the tuplet
expression `25` (numerator above 20, spec scenario E) are both rejected and
leave their state unchanged. -/
theorem rejected_expressions_witness :
    (patternSizeLCDClicked ⟨192, 4⟩ .many).accepted = false ∧
    (patternSizeLCDClicked ⟨192, 4⟩ .many).pattern = ⟨192, 4⟩ ∧
    (tupletLCDClicked ⟨3, 2, [⟨16, 3, 2⟩], .ratio 3 2⟩ (.one (some 25))).accepted = false ∧
    (tupletLCDClicked ⟨3, 2, [⟨16, 3, 2⟩], .ratio 3 2⟩ (.one (some 25))).state =
      ⟨3, 2, [⟨16, 3, 2⟩], .ratio 3 2⟩ := by
  have h := rejected_expressions_frame ⟨192, 4⟩ .many
    ⟨3, 2, [⟨16, 3, 2⟩], .ratio 3 2⟩ (.one (some 25))
  exact ⟨rfl, h.1 rfl, by decide, h.2 (by decide)⟩

/-- C8: for a tuplet expression giving only a numerator (no colon), the
denominator is derived by the loop `den = 1; while 2*den <= num: den *= 2`,
and for every positive numerator that value is the largest power of two not
exceeding the numerator; the expression is accepted whenever
`0 < num ≤ 20`. -/
theorem tuplet_numerator_only (st : TupletPanelState) (num : ℤ)
    (h0 : 0 < num) (h20 : num ≤ 20) :
    (tupletLCDClicked st (.one (some num))).accepted = true ∧
    (tupletLCDClicked st (.one (some num))).state.prefsTupletNumerator = num ∧
    (tupletLCDClicked st (.one (some num))).state.prefsTupletDenominator =
      stdTupletDenominator num ∧
    (∃ k : ℕ, stdTupletDenominator num = 2 ^ k ∧ 2 ^ k ≤ num ∧ num < 2 ^ (k + 1)) := by
  simp only [tupletLCDClicked]
  unfold tupletAccept
  rw [if_pos h0, if_neg (not_lt.mpr h20)]
  exact ⟨rfl, rfl, rfl, stdTupletDenominator_pow num h0⟩

/-- C8 witness: the tuplet expression `5` is accepted and yields the ratio
`(5, 4)`, 4 being the largest power of two not exceeding 5. -/
theorem tuplet_numerator_only_witness :
    (0:ℤ) < 5 ∧ (5:ℤ) ≤ 20 ∧ stdTupletDenominator 5 = 4 ∧
    (tupletLCDClicked ⟨4, 4, [⟨16, 4, 4⟩], .ratio 4 4⟩ (.one (some 5))).accepted = true ∧
    (tupletLCDClicked ⟨4, 4, [⟨16, 4, 4⟩],
      .ratio 4 4⟩ (.one (some 5))).state.prefsTupletNumerator = 5 ∧
    (tupletLCDClicked ⟨4, 4, [⟨16, 4, 4⟩],
      .ratio 4 4⟩ (.one (some 5))).state.prefsTupletDenominator = 4 := by
  have h := tuplet_numerator_only ⟨4, 4, [⟨16, 4, 4⟩], .ratio 4 4⟩ 5 (by norm_num) (by norm_num)
  refine ⟨by norm_num, by norm_num, by decide, h.1, h.2.1, ?_⟩
  rw [h.2.2.1]
  decide

/-- C9 counterexample: accepting the tuplet expression `4` produces the ratio
`(4, 4)`, yet `tupletLCDClicked` sets the LCD text to the fraction `4:4` —
not to `off`: the handler formats every accepted ratio as `num:den`
(PatternEditorPanel.cpp line 1162) with no special case for (4,4). -/
theorem tuplet_off_display_counterexample :
    (tupletLCDClicked ⟨3, 2, [⟨16, 3, 2⟩], .ratio 3 2⟩ (.one (some 4))).accepted = true ∧
    (tupletLCDClicked ⟨3, 2, [⟨16, 3, 2⟩],
      .ratio 3 2⟩ (.one (some 4))).state.prefsTupletNumerator = 4 ∧
    (tupletLCDClicked ⟨3, 2, [⟨16, 3, 2⟩],
      .ratio 3 2⟩ (.one (some 4))).state.prefsTupletDenominator = 4 ∧
    (tupletLCDClicked ⟨3, 2, [⟨16, 3, 2⟩], .ratio 3 2⟩ (.one (some 4))).state.tupletLcd =
      TupletText.ratio 4 4 ∧
    TupletText.ratio 4 4 ≠ TupletText.off := by decide

/-- C9 amended: the (4,4) ratio is displayed as `off` only when the panel
initialises the tuplet LCD from the stored preferences at construction; after
ANY accepted tuplet expression — numerator-only or explicit `num:den` —
`tupletLCDClicked` always sets the LCD to the fraction text of the stored
ratio, never to `off`, even when the resulting ratio is (4,4). -/
theorem tuplet_off_display_amended (st : TupletPanelState) (parts : TupletParts)
    (hacc : (tupletLCDClicked st parts).accepted = true) :
    initialTupletText 4 4 = TupletText.off ∧
    (tupletLCDClicked st parts).state.tupletLcd =
      TupletText.ratio (tupletLCDClicked st parts).state.prefsTupletNumerator
        (tupletLCDClicked st parts).state.prefsTupletDenominator := by
  refine ⟨by decide, ?_⟩
  cases parts with
  | many => exact absurd hacc (by simp [tupletLCDClicked])
  | one num =>
      cases num with
      | none => exact absurd hacc (by simp [tupletLCDClicked])
      | some n =>
          simp only [tupletLCDClicked] at hacc ⊢
          exact tupletAccept_lcd st n (stdTupletDenominator n) hacc
  | two num den =>
      cases num with
      | none => exact absurd hacc (by simp [tupletLCDClicked])
      | some n =>
          cases den with
          | none => exact absurd hacc (by simp [tupletLCDClicked])
          | some d =>
              simp only [tupletLCDClicked] at hacc ⊢
              split_ifs at hacc ⊢ with hrange
              exact tupletAccept_lcd st n d hacc

/-- C9 witness: the explicit expression `4:4` is accepted, yields the ratio
(4,4), and still sets the LCD to the fraction text — while the
construction-time rendering of (4,4) is `off`. -/
theorem tuplet_off_display_witness :
    (tupletLCDClicked ⟨3, 2, [⟨16, 3, 2⟩], .ratio 3 2⟩ (.two (some 4) (some 4))).accepted = true ∧
    initialTupletText 4 4 = TupletText.off ∧
    (tupletLCDClicked ⟨3, 2, [⟨16, 3, 2⟩],
      .ratio 3 2⟩ (.two (some 4) (some 4))).state.prefsTupletNumerator = 4 ∧
    (tupletLCDClicked ⟨3, 2, [⟨16, 3, 2⟩],
      .ratio 3 2⟩ (.two (some 4) (some 4))).state.prefsTupletDenominator = 4 ∧
    (tupletLCDClicked ⟨3, 2, [⟨16, 3, 2⟩], .ratio 3 2⟩ (.two (some 4) (some 4))).state.tupletLcd =
      TupletText.ratio
        (tupletLCDClicked ⟨3, 2, [⟨16, 3, 2⟩],
          .ratio 3 2⟩ (.two (some 4) (some 4))).state.prefsTupletNumerator
        (tupletLCDClicked ⟨3, 2, [⟨16, 3, 2⟩],
          .ratio 3 2⟩ (.two (some 4) (some 4))).state.prefsTupletDenominator := by
  have h := tuplet_off_display_amended ⟨3, 2, [⟨16, 3, 2⟩], .ratio 3 2⟩
    (.two (some 4) (some 4)) (by decide)
  exact ⟨by decide, h.1, by decide, by decide, h.2⟩

/-- C10: selecting a plain resolution entry (index 0 through 4) sets the
resolution of every editor to `2 ^ (index + 2)` while leaving each tuplet
numerator and denominator untouched, whereas the `off` entry (index 11) sets
every resolution to 192 and overwrites every tuplet ratio to (4,4),
discarding any custom tuplet. -/
theorem gridResolution_editor_effects (st : ResolutionPanelState) (i : ℤ) :
    (0 ≤ i → i ≤ 4 →
      (gridResolutionChanged st i).editors =
        st.editors.map (fun e => { e with resolution := 2 ^ (i + 2).toNat })) ∧
    (gridResolutionChanged st 11).editors =
      st.editors.map (fun _ => ⟨192, 4, 4⟩) := by
  constructor
  · intro h0 h4
    unfold gridResolutionChanged
    rw [if_neg (by omega : ¬ i = 11), if_neg (by omega : ¬ 4 < i)]
    rfl
  · unfold gridResolutionChanged
    rw [if_pos rfl]
    unfold finishResolution setResolutionToAllEditors setTupletRatioToAllEditors
      setResolution setTupletRatio
    simp only [List.map_map]
    rfl

/-- C10 witness: with one editor at resolution 8 and tuplet 5:4, selection
index 2 yields resolution 16 with the 5:4 tuplet intact, while index 11
yields resolution 192 with the tuplet forced to 4:4. -/
theorem gridResolution_editor_witness :
    ((0:ℤ) ≤ 2) ∧ ((2:ℤ) ≤ 4) ∧
    (gridResolutionChanged ⟨[⟨8, 5, 4⟩], 8, 5, 4, .ratio 5 4, 1⟩ 2).editors = [⟨16, 5, 4⟩] ∧
    (gridResolutionChanged ⟨[⟨8, 5, 4⟩], 8, 5, 4, .ratio 5 4, 1⟩ 11).editors = [⟨192, 4, 4⟩] := by
  have h := gridResolution_editor_effects ⟨[⟨8, 5, 4⟩], 8, 5, 4, .ratio 5 4, 1⟩ 2
  refine ⟨by norm_num, by norm_num, ?_, ?_⟩
  · rw [h.1 (by norm_num) (by norm_num)]
    decide
  · rw [h.2]
    decide

end Hydrogen
